import Mathlib

/-!
Shallow embedding of the repository + RPC procedure layer of the
bun-react-trpc-fullstack template: the `users` and `posts` tables
(src/db/schema/users.ts, src/db/schema/posts.ts), the `UserRepository`
and `PostRepository` classes (src/modules/users/api/repository.ts,
src/modules/posts/api/repository.ts, and the older copy in
src/server/routers/posts.ts), the tRPC routers built on them
(src/modules/users/api/router.ts, the posts router), and the identifier
generator (src/lib/nanoid.ts).

The relational store is modelled as a pair of row lists; timestamps are
naturals (milliseconds since the epoch); each repository method is a pure
function on the store state, with the values the ORM generates at call time
(fresh ids, `new Date()`) passed in as explicit parameters.  Store-enforced
constraints (primary-key and email uniqueness on insert, the
`posts.authorId → users.id` foreign key with `ON DELETE CASCADE`) are part
of the store model, since the repositories rely on them.
-/

/-- A row of the `users` table (src/db/schema/users.ts): id (pk, generated),
name, email (unique), createdAt, updatedAt. -/
structure UserRow where
  id : String
  name : String
  email : String
  createdAt : Nat
  updatedAt : Nat
deriving DecidableEq, Repr

/-- A row of the `posts` table (src/db/schema/posts.ts): id (pk, generated),
title, content, authorId (fk to users.id, cascade delete), createdAt,
updatedAt. -/
structure PostRow where
  id : String
  title : String
  content : String
  authorId : String
  createdAt : Nat
  updatedAt : Nat
deriving DecidableEq, Repr

/-- The persisted state: the two relational tables. -/
structure DB where
  users : List UserRow
  posts : List PostRow
deriving DecidableEq, Repr

/-- Store-level constraint violations surfaced by the driver
(unique-key violation 23505, foreign-key violation 23503). -/
inductive DBError where
  | uniqueViolation
  | foreignKeyViolation
deriving DecidableEq, Repr

/-! ### Identifier generator (src/lib/nanoid.ts) -/

/-- The custom alphabet string of src/lib/nanoid.ts, verbatim.  The comment
above it in the source says it omits the ambiguous characters
0, O, I, l, 1. -/
def alphabet : String := "123456789ABCDEFGHJKMNPQRSTUVWXYZabcdefghijkmnopqrstuvwxyz"

/-- The characters of the alphabet, as a list. -/
def alphabetChars : List Char := alphabet.data

/-- `customAlphabet(alphabet, 12)`: draws 12 characters from the alphabet
using a random source, modelled as a stream of indices into the alphabet. -/
def nanoid (rand : Nat → Fin alphabetChars.length) : String :=
  String.mk ((List.range 12).map (fun i => alphabetChars.get (rand i)))

/-- `createUserId()` from src/lib/nanoid.ts. -/
def createUserId (rand : Nat → Fin alphabetChars.length) : String :=
  "user_" ++ nanoid rand

/-- `createPostId()` from src/lib/nanoid.ts. -/
def createPostId (rand : Nat → Fin alphabetChars.length) : String :=
  "post_" ++ nanoid rand

/-! ### Update patches

`Partial<NewUser>` / `Partial<NewPost>` as accepted by the repository
`update` methods: every insertable column optional.  The routers pass
patches whose `id`, `createdAt`, `updatedAt` components are absent
(their zod input schemas omit those keys). -/

/-- A `Partial<NewUser>` patch. -/
structure UserPatch where
  id : Option String
  name : Option String
  email : Option String
  createdAt : Option Nat
  updatedAt : Option Nat
deriving DecidableEq, Repr

/-- A `Partial<NewPost>` patch. -/
structure PostPatch where
  id : Option String
  title : Option String
  content : Option String
  authorId : Option String
  createdAt : Option Nat
  updatedAt : Option Nat
deriving DecidableEq, Repr

/-- The column assignment `.set({ ...userData, updatedAt: new Date() })`
applied to one row: columns present in the patch are overwritten, the rest
keep their values, and `updatedAt` is overwritten with `now` last (the
spread puts the patch first, so an `updatedAt` in the patch is ignored). -/
def applyUserPatch (u : UserRow) (p : UserPatch) (now : Nat) : UserRow :=
  { id := p.id.getD u.id
    name := p.name.getD u.name
    email := p.email.getD u.email
    createdAt := p.createdAt.getD u.createdAt
    updatedAt := now }

/-- The column assignment `.set({ ...postData, updatedAt: new Date() })`
applied to one post row. -/
def applyPostPatch (q : PostRow) (p : PostPatch) (now : Nat) : PostRow :=
  { id := p.id.getD q.id
    title := p.title.getD q.title
    content := p.content.getD q.content
    authorId := p.authorId.getD q.authorId
    createdAt := p.createdAt.getD q.createdAt
    updatedAt := now }

/-- `ORDER BY createdAt DESC` (drizzle `orderBy(desc(...createdAt))`),
modelled as sorting by the newest-first relation. -/
def byNewest (a b : PostRow) : Prop := b.createdAt ≤ a.createdAt

instance : DecidableRel byNewest :=
  fun a b => inferInstanceAs (Decidable (b.createdAt ≤ a.createdAt))

instance : IsTotal PostRow byNewest :=
  ⟨fun a b => by unfold byNewest; exact Nat.le_total _ _⟩

instance : IsTrans PostRow byNewest :=
  ⟨fun _ _ _ hab hbc => Nat.le_trans hbc hab⟩

/-- The store's `ORDER BY createdAt DESC` on a set of post rows. -/
def sortByCreatedAtDesc (l : List PostRow) : List PostRow :=
  List.insertionSort byNewest l

namespace UserRepository

/-- `UserRepository.findAll`: `SELECT * FROM users` (no ORDER BY). -/
def findAll (db : DB) : List UserRow :=
  db.users

/-- `UserRepository.findById`: `SELECT * FROM users WHERE id = $1`,
then `result[0]`. -/
def findById (db : DB) (id : String) : Option UserRow :=
  db.users.find? (fun u => u.id == id)

/-- `UserRepository.findByEmail`: `SELECT * FROM users WHERE email = $1`,
then `result[0]`. -/
def findByEmail (db : DB) (email : String) : Option UserRow :=
  db.users.find? (fun u => u.email == email)

/-- `UserRepository.create`: `INSERT INTO users ... RETURNING *`.  The
generated id and the creation instant are the `$defaultFn`/`defaultNow()`
values, passed explicitly.  The store rejects a duplicate primary key or a
duplicate email with a unique-constraint violation and persists nothing. -/
def create (db : DB) (id name email : String) (now : Nat) :
    Except DBError UserRow × DB :=
  if db.users.any (fun u => u.id == id) then
    (Except.error DBError.uniqueViolation, db)
  else if db.users.any (fun u => u.email == email) then
    (Except.error DBError.uniqueViolation, db)
  else
    let row : UserRow := ⟨id, name, email, now, now⟩
    (Except.ok row, { db with users := db.users ++ [row] })

/-- `UserRepository.update`: `UPDATE users SET ... , updatedAt = now
WHERE id = $1 RETURNING *`, then `result[0]`.  Returns the first updated
row (or none) together with the new store state. -/
def update (db : DB) (id : String) (p : UserPatch) (now : Nat) :
    Option UserRow × DB :=
  ((db.users.find? (fun u => u.id == id)).map (fun u => applyUserPatch u p now),
   { db with users :=
       db.users.map (fun u => if u.id == id then applyUserPatch u p now else u) })

/-- `UserRepository.delete`: `DELETE FROM users WHERE id = $1`.  The
`ON DELETE CASCADE` on `posts.authorId` makes the store delete the user's
posts in the same statement. -/
def delete (db : DB) (id : String) : DB :=
  { users := db.users.filter (fun u => u.id != id)
    posts := db.posts.filter (fun p => p.authorId != id) }

end UserRepository

namespace PostRepository

/-- `PostRepository.findAll` (src/modules/posts/api/repository.ts):
`SELECT * FROM posts ORDER BY createdAt DESC`. -/
def findAll (db : DB) : List PostRow :=
  sortByCreatedAtDesc db.posts

/-- `PostRepository.findById`: `SELECT * FROM posts WHERE id = $1`,
then `result[0]`. -/
def findById (db : DB) (id : String) : Option PostRow :=
  db.posts.find? (fun p => p.id == id)

/-- `PostRepository.findByAuthor`: `SELECT * FROM posts WHERE authorId = $1
ORDER BY createdAt DESC`. -/
def findByAuthor (db : DB) (authorId : String) : List PostRow :=
  sortByCreatedAtDesc (db.posts.filter (fun p => p.authorId == authorId))

/-- `PostRepository.create`: `INSERT INTO posts ... RETURNING *`.  The store
rejects a duplicate primary key (unique violation) or an `authorId` that
references no user (foreign-key violation) and persists nothing. -/
def create (db : DB) (id title content authorId : String) (now : Nat) :
    Except DBError PostRow × DB :=
  if db.posts.any (fun p => p.id == id) then
    (Except.error DBError.uniqueViolation, db)
  else if !(db.users.any (fun u => u.id == authorId)) then
    (Except.error DBError.foreignKeyViolation, db)
  else
    let row : PostRow := ⟨id, title, content, authorId, now, now⟩
    (Except.ok row, { db with posts := db.posts ++ [row] })

/-- `PostRepository.update`: `UPDATE posts SET ... , updatedAt = now
WHERE id = $1 RETURNING *`, then `result[0]`. -/
def update (db : DB) (id : String) (p : PostPatch) (now : Nat) :
    Option PostRow × DB :=
  ((db.posts.find? (fun q => q.id == id)).map (fun q => applyPostPatch q p now),
   { db with posts :=
       db.posts.map (fun q => if q.id == id then applyPostPatch q p now else q) })

/-- `PostRepository.delete`: `DELETE FROM posts WHERE id = $1`. -/
def delete (db : DB) (id : String) : DB :=
  { db with posts := db.posts.filter (fun p => p.id != id) }

/-- `PostRepository.getPostWithAuthor`: `db.query.posts.findFirst` with the
`author` relation joined in. -/
def getPostWithAuthor (db : DB) (id : String) :
    Option (PostRow × Option UserRow) :=
  (db.posts.find? (fun p => p.id == id)).map
    (fun p => (p, db.users.find? (fun u => u.id == p.authorId)))

/-- `PostRepository.getPostsWithAuthors`: `db.query.posts.findMany` ordered
by `createdAt` descending, each row joined with its author. -/
def getPostsWithAuthors (db : DB) : List (PostRow × Option UserRow) :=
  (sortByCreatedAtDesc db.posts).map
    (fun p => (p, db.users.find? (fun u => u.id == p.authorId)))

/-- `PostRepository.getPostCount`: `SELECT count(*) FROM posts`. -/
def getPostCount (db : DB) : Nat :=
  db.posts.length

end PostRepository

/-!
### The older `PostRepository` copy in src/server/routers/posts.ts

The repository keeps a second `PostRepository` class definition inside
src/server/routers/posts.ts (the pre-migration location).  It is embedded
separately below, method by method from that file, so that the two can be
compared.
-/

namespace ServerPosts

/-- `PostRepository.findAll` of src/server/routers/posts.ts. -/
def findAll (db : DB) : List PostRow :=
  sortByCreatedAtDesc db.posts

/-- `PostRepository.findById` of src/server/routers/posts.ts. -/
def findById (db : DB) (id : String) : Option PostRow :=
  db.posts.find? (fun p => p.id == id)

/-- `PostRepository.findByAuthor` of src/server/routers/posts.ts. -/
def findByAuthor (db : DB) (authorId : String) : List PostRow :=
  sortByCreatedAtDesc (db.posts.filter (fun p => p.authorId == authorId))

/-- `PostRepository.create` of src/server/routers/posts.ts. -/
def create (db : DB) (id title content authorId : String) (now : Nat) :
    Except DBError PostRow × DB :=
  if db.posts.any (fun p => p.id == id) then
    (Except.error DBError.uniqueViolation, db)
  else if !(db.users.any (fun u => u.id == authorId)) then
    (Except.error DBError.foreignKeyViolation, db)
  else
    let row : PostRow := ⟨id, title, content, authorId, now, now⟩
    (Except.ok row, { db with posts := db.posts ++ [row] })

/-- `PostRepository.update` of src/server/routers/posts.ts. -/
def update (db : DB) (id : String) (p : PostPatch) (now : Nat) :
    Option PostRow × DB :=
  ((db.posts.find? (fun q => q.id == id)).map (fun q => applyPostPatch q p now),
   { db with posts :=
       db.posts.map (fun q => if q.id == id then applyPostPatch q p now else q) })

/-- `PostRepository.delete` of src/server/routers/posts.ts. -/
def delete (db : DB) (id : String) : DB :=
  { db with posts := db.posts.filter (fun p => p.id != id) }

/-- `PostRepository.getPostWithAuthor` of src/server/routers/posts.ts. -/
def getPostWithAuthor (db : DB) (id : String) :
    Option (PostRow × Option UserRow) :=
  (db.posts.find? (fun p => p.id == id)).map
    (fun p => (p, db.users.find? (fun u => u.id == p.authorId)))

/-- `PostRepository.getPostsWithAuthors` of src/server/routers/posts.ts. -/
def getPostsWithAuthors (db : DB) : List (PostRow × Option UserRow) :=
  (sortByCreatedAtDesc db.posts).map
    (fun p => (p, db.users.find? (fun u => u.id == p.authorId)))

/-- `PostRepository.getPostCount` of src/server/routers/posts.ts. -/
def getPostCount (db : DB) : Nat :=
  db.posts.length

end ServerPosts

/-!
### Input validation and the tRPC routers

`usersRouter.create` validates its input against
`insertUserSchema.omit({createdAt: true, id: true, updatedAt: true})`,
where `insertUserSchema = createInsertSchema(users)` (src/db/schema/users.ts).
drizzle-zod maps the `text()` columns `name` and `email` both to plain
`z.string()`; after the omit, the input contract is
`z.object({ name: z.string(), email: z.string() })`.  Incoming JSON is
modelled by `JValue`; the zod parse by `parseCreateUser`.
-/

/-- A JSON value arriving at the RPC boundary. -/
inductive JValue where
  | str : String → JValue
  | num : Int → JValue
  | bool : Bool → JValue
  | null : JValue
  | arr : List JValue → JValue
  | obj : List (String × JValue) → JValue

/-- First value bound to a key in a JSON object. -/
def lookupField (fields : List (String × JValue)) (k : String) : Option JValue :=
  match fields with
  | [] => none
  | (k2, v) :: rest => if k2 == k then some v else lookupField rest k

/-- The validated input of `usersRouter.create`. -/
structure CreateUserInput where
  name : String
  email : String
deriving DecidableEq, Repr

/-- The object part of the zod parse of `usersRouter.create`'s input schema:
both fields must be present and be strings; no further checks are applied
to either string. -/
def parseCreateUserFields (fields : List (String × JValue)) :
    Option CreateUserInput :=
  match lookupField fields "name", lookupField fields "email" with
  | some (JValue.str n), some (JValue.str e) => some ⟨n, e⟩
  | _, _ => none

/-- The zod parse of `usersRouter.create`'s input schema
`z.object({ name: z.string(), email: z.string() })` (unknown keys are
stripped; a non-object input is rejected). -/
def parseCreateUser (v : JValue) : Option CreateUserInput :=
  match v with
  | JValue.obj fields => parseCreateUserFields fields
  | _ => none

/-- Modelled from the spec: an "email-shaped" string.  The spec never
defines the shape beyond "non-email-shaped strings" being rejected; the
weakest necessary condition every email shape shares — the string contains
an `@` — suffices to exhibit non-email-shaped inputs. -/
def emailShaped (s : String) : Bool := s.data.contains '@'

/-- The result of the `delete` mutations: `{ success: true }`. -/
structure DeleteResult where
  success : Bool
deriving DecidableEq, Repr

/-- `usersRouter.create`: validate, then delegate to
`UserRepository.create`.  A validation failure rejects the call before any
repository method runs, so the store is returned untouched. -/
def usersCreateProc (db : DB) (v : JValue) (genId : String) (now : Nat) :
    Option (Except DBError UserRow) × DB :=
  match parseCreateUser v with
  | none => (none, db)
  | some input =>
    let r := UserRepository.create db genId input.name input.email now
    (some r.1, r.2)

/-- `usersRouter.delete`: delegate to `UserRepository.delete`, then return
`{ success: true }`. -/
def usersDeleteProc (db : DB) (id : String) : DB × DeleteResult :=
  (UserRepository.delete db id, ⟨true⟩)

/-- `postsRouter.delete`: delegate to `PostRepository.delete`, then return
`{ success: true }`. -/
def postsDeleteProc (db : DB) (id : String) : DB × DeleteResult :=
  (PostRepository.delete db id, ⟨true⟩)

/-- The `data` field of `usersRouter.update`'s input:
`insertUserSchema.omit({createdAt, id, updatedAt}).partial()` — only
`name` and `email`, each optional. -/
structure UserUpdateData where
  name : Option String
  email : Option String
deriving DecidableEq, Repr

/-- The `data` field of `postsRouter.update`'s input:
`insertPostSchema.omit({createdAt, id, updatedAt}).partial()`. -/
structure PostUpdateData where
  title : Option String
  content : Option String
  authorId : Option String
deriving DecidableEq, Repr

/-- `usersRouter.update`: delegate to `UserRepository.update` with the
validated `data` object; its zod schema omits `id`, `createdAt` and
`updatedAt`, so the patch reaching the repository never carries them. -/
def usersUpdateProc (db : DB) (id : String) (data : UserUpdateData)
    (now : Nat) : Option UserRow × DB :=
  UserRepository.update db id ⟨none, data.name, data.email, none, none⟩ now

/-- `postsRouter.update`: delegate to `PostRepository.update` with the
validated `data` object. -/
def postsUpdateProc (db : DB) (id : String) (data : PostUpdateData)
    (now : Nat) : Option PostRow × DB :=
  PostRepository.update db id ⟨none, data.title, data.content, data.authorId, none, none⟩ now

/-- The row `usersRouter.update` writes for a found row `u`: the validated
`data` object becomes the repository patch (no `id`, `createdAt` or
`updatedAt` component), applied at instant `now`. -/
def routerPatchedUser (u : UserRow) (d : UserUpdateData) (now : Nat) : UserRow :=
  applyUserPatch u ⟨none, d.name, d.email, none, none⟩ now

/-- The row `postsRouter.update` writes for a found row `q`. -/
def routerPatchedPost (q : PostRow) (d : PostUpdateData) (now : Nat) : PostRow :=
  applyPostPatch q ⟨none, d.title, d.content, d.authorId, none, none⟩ now

/-! ### Sample store states, used to evaluate the development on concrete inputs -/

/-- The example user of the spec's §8 scenario. -/
def adaRow : UserRow := ⟨"user_ada", "Ada", "ada@example.com", 5, 5⟩

/-- A post authored by the example user. -/
def adaPost : PostRow := ⟨"post_one", "Hi", "World", "user_ada", 6, 6⟩

/-- A store holding one user and one post by that user. -/
def sampleDB : DB := ⟨[adaRow], [adaPost]⟩

/-! ## Theorems -/

/-- C1: deleting a user `u` that is present in the store removes the row `u`,
removes every post row whose `authorId` equals `u.id` (the cascade), and a
subsequent `PostRepository.findByAuthor u.id` returns the empty sequence. -/
theorem userDelete_cascade (db : DB) (u : UserRow) (hu : u ∈ db.users) :
    u ∉ (UserRepository.delete db u.id).users ∧
    (UserRepository.delete db u.id).posts.filter (fun p => p.authorId == u.id) = [] ∧
    PostRepository.findByAuthor (UserRepository.delete db u.id) u.id = [] := by
  have hfilter :
      (db.posts.filter (fun p => p.authorId != u.id)).filter
        (fun p => p.authorId == u.id) = [] := by
    rw [List.filter_eq_nil_iff]
    intro a ha
    have h2 := (List.mem_filter.mp ha).2
    simp only [bne_iff_ne, ne_eq] at h2
    simp [h2]
  refine ⟨?_, ?_, ?_⟩
  · intro hmem
    have h2 := (List.mem_filter.mp hmem).2
    simp at h2
  · exact hfilter
  · show sortByCreatedAtDesc
      ((db.posts.filter (fun p => p.authorId != u.id)).filter
        (fun p => p.authorId == u.id)) = []
    rw [hfilter]
    rfl

/-- C1 witness: the cascade evaluated on the one-user-one-post store. -/
theorem userDelete_cascade_witness :
    adaRow ∈ sampleDB.users ∧
    adaRow ∉ (UserRepository.delete sampleDB adaRow.id).users ∧
    (UserRepository.delete sampleDB adaRow.id).posts.filter
      (fun p => p.authorId == adaRow.id) = [] ∧
    PostRepository.findByAuthor (UserRepository.delete sampleDB adaRow.id) adaRow.id = [] :=
  ⟨by decide, userDelete_cascade sampleDB adaRow (by decide)⟩

/-- C2: inserting a second user with the email of a user `u` already in the
store fails with a unique-constraint violation, whatever the name, generated
id and instant are, and the store is returned unchanged. -/
theorem userCreate_duplicate_email (db : DB) (u : UserRow) (hu : u ∈ db.users)
    (id name : String) (now : Nat) :
    UserRepository.create db id name u.email now =
      (Except.error DBError.uniqueViolation, db) := by
  unfold UserRepository.create
  have h : db.users.any (fun x => x.email == u.email) = true :=
    List.any_eq_true.mpr ⟨u, hu, by simp⟩
  split
  · rfl
  · simp [h]

/-- C2 witness: the duplicate insert evaluated on the sample store. -/
theorem userCreate_duplicate_email_witness :
    adaRow ∈ sampleDB.users ∧
    UserRepository.create sampleDB "user_new" "Eve" adaRow.email 9 =
      (Except.error DBError.uniqueViolation, sampleDB) :=
  ⟨by decide, userCreate_duplicate_email sampleDB adaRow (by decide) "user_new" "Eve" 9⟩

/-- C4: evaluation of the identifier alphabet.  The spec (and the comment in
src/lib/nanoid.ts) announce a 58-character alphabet excluding the ambiguous
characters 0, O, I, l and 1; the string in the code has 57 characters,
contains the digit 1, and omits the uppercase letter L instead.  Generated
ids are the entity prefix followed by 12 drawn characters, as announced. -/
theorem alphabet_divergence :
    alphabetChars.length = 57 ∧
    '1' ∈ alphabetChars ∧
    '0' ∉ alphabetChars ∧ 'O' ∉ alphabetChars ∧ 'I' ∉ alphabetChars ∧
    'l' ∉ alphabetChars ∧ 'L' ∉ alphabetChars ∧
    (∀ rand, createUserId rand = "user_" ++ nanoid rand ∧
      createPostId rand = "post_" ++ nanoid rand ∧ (nanoid rand).length = 12) := by
  refine ⟨by decide, by decide, by decide, by decide, by decide, by decide, by decide,
    fun rand => ⟨rfl, rfl, ?_⟩⟩
  show (String.mk ((List.range 12).map (fun i => alphabetChars.get (rand i)))).data.length = 12
  simp

/-- C7: the `delete` mutations of the users and posts routers return
`{ success: true }` for every id, whether or not a matching row exists, and
never raise; when no row matches (for users: no user with the id and no post
referencing it), the store is returned unchanged. -/
theorem delete_mutations_succeed (db : DB) (id : String) :
    (usersDeleteProc db id).2 = ⟨true⟩ ∧
    (postsDeleteProc db id).2 = ⟨true⟩ ∧
    ((∀ u ∈ db.users, u.id ≠ id) → (∀ p ∈ db.posts, p.authorId ≠ id) →
      (usersDeleteProc db id).1 = db) ∧
    ((∀ p ∈ db.posts, p.id ≠ id) → (postsDeleteProc db id).1 = db) := by
  refine ⟨rfl, rfl, ?_, ?_⟩
  · intro h1 h2
    show UserRepository.delete db id = db
    unfold UserRepository.delete
    have e1 : db.users.filter (fun u => u.id != id) = db.users :=
      List.filter_eq_self.mpr (fun a ha => by simp [h1 a ha])
    have e2 : db.posts.filter (fun p => p.authorId != id) = db.posts :=
      List.filter_eq_self.mpr (fun a ha => by simp [h2 a ha])
    rw [e1, e2]
  · intro h
    show PostRepository.delete db id = db
    unfold PostRepository.delete
    have e : db.posts.filter (fun p => p.id != id) = db.posts :=
      List.filter_eq_self.mpr (fun a ha => by simp [h a ha])
    rw [e]

/-- C7 witness: deleting ids absent from the sample store still returns
`{ success: true }` and leaves the store unchanged. -/
theorem delete_mutations_succeed_witness :
    (usersDeleteProc sampleDB "user_none").2 = ⟨true⟩ ∧
    (usersDeleteProc sampleDB "user_none").1 = sampleDB ∧
    (postsDeleteProc sampleDB "post_none").2 = ⟨true⟩ ∧
    (postsDeleteProc sampleDB "post_none").1 = sampleDB :=
  ⟨(delete_mutations_succeed sampleDB "user_none").1,
   (delete_mutations_succeed sampleDB "user_none").2.2.1 (by decide) (by decide),
   (delete_mutations_succeed sampleDB "post_none").2.1,
   (delete_mutations_succeed sampleDB "post_none").2.2.2 (by decide)⟩

/-- C8: the sequence returned by `getPostsWithAuthors` is sorted by
`createdAt` descending: any two adjacent entries `a, b` satisfy
`a.createdAt ≥ b.createdAt`. -/
theorem getPostsWithAuthors_sorted (db : DB) :
    List.Chain' (fun a b : PostRow × Option UserRow =>
      b.1.createdAt ≤ a.1.createdAt) (PostRepository.getPostsWithAuthors db) := by
  unfold PostRepository.getPostsWithAuthors
  rw [List.chain'_map]
  exact (List.sorted_insertionSort byNewest db.posts).chain'

/-- C10: the `PostRepository` in src/server/routers/posts.ts and the one in
src/modules/posts/api/repository.ts are behaviorally equivalent: every
method returns equal results (and equal post-states) on every store state
and argument list. -/
theorem postRepository_copies_equivalent :
    (∀ db, ServerPosts.findAll db = PostRepository.findAll db) ∧
    (∀ db id, ServerPosts.findById db id = PostRepository.findById db id) ∧
    (∀ db a, ServerPosts.findByAuthor db a = PostRepository.findByAuthor db a) ∧
    (∀ db id t c a now,
      ServerPosts.create db id t c a now = PostRepository.create db id t c a now) ∧
    (∀ db id p now,
      ServerPosts.update db id p now = PostRepository.update db id p now) ∧
    (∀ db id, ServerPosts.delete db id = PostRepository.delete db id) ∧
    (∀ db id,
      ServerPosts.getPostWithAuthor db id = PostRepository.getPostWithAuthor db id) ∧
    (∀ db, ServerPosts.getPostsWithAuthors db = PostRepository.getPostsWithAuthors db) ∧
    (∀ db, ServerPosts.getPostCount db = PostRepository.getPostCount db) :=
  ⟨fun _ => rfl, fun _ _ => rfl, fun _ _ => rfl, fun _ _ _ _ _ _ => rfl,
   fun _ _ _ _ => rfl, fun _ _ => rfl, fun _ _ => rfl, fun _ => rfl, fun _ => rfl⟩

/-- C3 (amended): the validation of `usersRouter.create` rejects a missing
`name` or `email` field and a wrongly-typed (non-string) `name` or `email`
field, and a rejected call never reaches the repository (the store is
returned untouched); but it applies no email-shape check: any pair of
strings is accepted. -/
theorem usersCreate_validation :
    (∀ fields, lookupField fields "name" = none →
      parseCreateUser (JValue.obj fields) = none) ∧
    (∀ fields, lookupField fields "email" = none →
      parseCreateUser (JValue.obj fields) = none) ∧
    (∀ fields v, lookupField fields "name" = some v →
      (∀ s, v ≠ JValue.str s) → parseCreateUser (JValue.obj fields) = none) ∧
    (∀ fields v, lookupField fields "email" = some v →
      (∀ s, v ≠ JValue.str s) → parseCreateUser (JValue.obj fields) = none) ∧
    (∀ db v genId now, parseCreateUser v = none →
      usersCreateProc db v genId now = (none, db)) ∧
    (∀ n e, parseCreateUser
      (JValue.obj [("name", JValue.str n), ("email", JValue.str e)]) =
        some ⟨n, e⟩) := by
  refine ⟨?_, ?_, ?_, ?_, ?_, ?_⟩
  · intro fields h
    show parseCreateUserFields fields = none
    unfold parseCreateUserFields
    rw [h]
  · intro fields h
    show parseCreateUserFields fields = none
    unfold parseCreateUserFields
    rw [h]
    cases lookupField fields "name" with
    | none => rfl
    | some w => cases w <;> rfl
  · intro fields v h hv
    show parseCreateUserFields fields = none
    unfold parseCreateUserFields
    rw [h]
    cases v with
    | str s => exact absurd rfl (hv s)
    | _ =>
      cases lookupField fields "email" with
      | none => rfl
      | some w => cases w <;> rfl
  · intro fields v h hv
    show parseCreateUserFields fields = none
    unfold parseCreateUserFields
    rw [h]
    cases v with
    | str s => exact absurd rfl (hv s)
    | _ =>
      cases lookupField fields "name" with
      | none => rfl
      | some w => cases w <;> rfl
  · intro db v genId now h
    unfold usersCreateProc
    rw [h]
  · intro n e
    rfl

/-- C3 witness: a call missing `name`, a call with a numeric `name`, and a
well-typed call, evaluated concretely. -/
theorem usersCreate_validation_witness :
    parseCreateUser (JValue.obj [("email", JValue.str "a@b.c")]) = none ∧
    parseCreateUser (JValue.obj
      [("name", JValue.num 3), ("email", JValue.str "a@b.c")]) = none ∧
    usersCreateProc sampleDB (JValue.obj [("email", JValue.str "a@b.c")])
      "user_new" 9 = (none, sampleDB) ∧
    parseCreateUser (JValue.obj
      [("name", JValue.str "Ada"), ("email", JValue.str "a@b.c")]) =
        some ⟨"Ada", "a@b.c"⟩ :=
  ⟨usersCreate_validation.1 [("email", JValue.str "a@b.c")] rfl,
   usersCreate_validation.2.2.1
     [("name", JValue.num 3), ("email", JValue.str "a@b.c")]
     (JValue.num 3) rfl (fun s h => JValue.noConfusion h),
   usersCreate_validation.2.2.2.2.1 sampleDB
     (JValue.obj [("email", JValue.str "a@b.c")]) "user_new" 9
     (usersCreate_validation.1 [("email", JValue.str "a@b.c")] rfl),
   usersCreate_validation.2.2.2.2.2 "Ada" "a@b.c"⟩

/-- C3 counterexample: an input whose email field is not email-shaped (it
contains no `@` at all) passes validation and reaches the repository, which
persists the row — the call is not rejected at the validation step. -/
theorem usersCreate_validation_counterexample :
    emailShaped "not-an-email" = false ∧
    parseCreateUser (JValue.obj
      [("name", JValue.str "Ada"), ("email", JValue.str "not-an-email")]) =
        some ⟨"Ada", "not-an-email"⟩ ∧
    usersCreateProc sampleDB
      (JValue.obj [("name", JValue.str "Ada"), ("email", JValue.str "not-an-email")])
      "user_new" 9 =
      (some (Except.ok ⟨"user_new", "Ada", "not-an-email", 9, 9⟩),
       ⟨[adaRow, ⟨"user_new", "Ada", "not-an-email", 9, 9⟩], [adaPost]⟩) := by
  refine ⟨by decide, rfl, ?_⟩
  rfl

/-- C5 counterexample: when the update statement runs at the same clock
instant as the row's current `updatedAt` (two writes inside one timestamp
granule), the returned row's `updatedAt` equals the prior value — it is not
strictly greater. -/
theorem update_advances_updatedAt_counterexample :
    UserRepository.findById sampleDB "user_ada" = some adaRow ∧
    adaRow.updatedAt = 5 ∧
    (UserRepository.update sampleDB "user_ada" ⟨none, none, none, none, none⟩ 5).1 =
      some ⟨"user_ada", "Ada", "ada@example.com", 5, 5⟩ ∧
    ¬ (5 > 5) := by
  refine ⟨by decide, rfl, by decide, by decide⟩

/-- C5 (amended): `update` on a found row always returns the row with
`updatedAt` set to the instant of the call; that value is strictly greater
than the prior `updatedAt` whenever the call instant is strictly later than
the prior `updatedAt` (for both repositories, for every patch, including
the empty one). -/
theorem update_advances_updatedAt :
    (∀ db id p now u, UserRepository.findById db id = some u →
      u.updatedAt < now →
      (UserRepository.update db id p now).1 = some (applyUserPatch u p now) ∧
      (applyUserPatch u p now).updatedAt = now ∧
      u.updatedAt < (applyUserPatch u p now).updatedAt) ∧
    (∀ db id p now q, PostRepository.findById db id = some q →
      q.updatedAt < now →
      (PostRepository.update db id p now).1 = some (applyPostPatch q p now) ∧
      (applyPostPatch q p now).updatedAt = now ∧
      q.updatedAt < (applyPostPatch q p now).updatedAt) := by
  constructor
  · intro db id p now u hfind hlt
    have h2 : db.users.find? (fun x => x.id == id) = some u := hfind
    refine ⟨?_, rfl, hlt⟩
    show (db.users.find? (fun x => x.id == id)).map
      (fun x => applyUserPatch x p now) = some (applyUserPatch u p now)
    rw [h2]
    rfl
  · intro db id p now q hfind hlt
    have h2 : db.posts.find? (fun x => x.id == id) = some q := hfind
    refine ⟨?_, rfl, hlt⟩
    show (db.posts.find? (fun x => x.id == id)).map
      (fun x => applyPostPatch x p now) = some (applyPostPatch q p now)
    rw [h2]
    rfl

/-- C5 witness: an empty-patch update at a strictly later instant, on the
sample store, for both repositories. -/
theorem update_advances_updatedAt_witness :
    ((UserRepository.update sampleDB "user_ada" ⟨none, none, none, none, none⟩ 9).1 =
      some (applyUserPatch adaRow ⟨none, none, none, none, none⟩ 9) ∧
     (applyUserPatch adaRow ⟨none, none, none, none, none⟩ 9).updatedAt = 9 ∧
     adaRow.updatedAt < (applyUserPatch adaRow ⟨none, none, none, none, none⟩ 9).updatedAt) ∧
    ((PostRepository.update sampleDB "post_one" ⟨none, none, none, none, none, none⟩ 9).1 =
      some (applyPostPatch adaPost ⟨none, none, none, none, none, none⟩ 9) ∧
     (applyPostPatch adaPost ⟨none, none, none, none, none, none⟩ 9).updatedAt = 9 ∧
     adaPost.updatedAt < (applyPostPatch adaPost ⟨none, none, none, none, none, none⟩ 9).updatedAt) :=
  ⟨update_advances_updatedAt.1 sampleDB "user_ada"
     ⟨none, none, none, none, none⟩ 9 adaRow (by decide) (by decide),
   update_advances_updatedAt.2 sampleDB "post_one"
     ⟨none, none, none, none, none, none⟩ 9 adaPost (by decide) (by decide)⟩

/-- C6: `update` on an id matching no row returns `none` instead of
throwing, and the store state it returns is identical to the one it was
given — for both repositories and every patch. -/
theorem update_nonexistent_id :
    (∀ db id p now, (∀ u ∈ db.users, u.id ≠ id) →
      UserRepository.update db id p now = (none, db)) ∧
    (∀ db id p now, (∀ q ∈ db.posts, q.id ≠ id) →
      PostRepository.update db id p now = (none, db)) := by
  constructor
  · intro db id p now h
    have hfind : db.users.find? (fun u => u.id == id) = none :=
      List.find?_eq_none.mpr (fun a ha => by simp [h a ha])
    have hmap : db.users.map
        (fun u => if u.id == id then applyUserPatch u p now else u) = db.users := by
      have e : db.users.map
          (fun u => if u.id == id then applyUserPatch u p now else u) =
          db.users.map (fun u => u) :=
        List.map_congr_left (fun a ha => by simp [h a ha])
      rw [e]
      simp
    unfold UserRepository.update
    rw [hfind, hmap]
    rfl
  · intro db id p now h
    have hfind : db.posts.find? (fun q => q.id == id) = none :=
      List.find?_eq_none.mpr (fun a ha => by simp [h a ha])
    have hmap : db.posts.map
        (fun q => if q.id == id then applyPostPatch q p now else q) = db.posts := by
      have e : db.posts.map
          (fun q => if q.id == id then applyPostPatch q p now else q) =
          db.posts.map (fun q => q) :=
        List.map_congr_left (fun a ha => by simp [h a ha])
      rw [e]
      simp
    unfold PostRepository.update
    rw [hfind, hmap]
    rfl

/-- C6 witness: updating ids absent from the sample store returns `none`
and the unchanged store, for both repositories. -/
theorem update_nonexistent_id_witness :
    UserRepository.update sampleDB "user_none" ⟨none, none, none, none, none⟩ 9 =
      (none, sampleDB) ∧
    PostRepository.update sampleDB "post_none" ⟨none, none, none, none, none, none⟩ 9 =
      (none, sampleDB) :=
  ⟨update_nonexistent_id.1 sampleDB "user_none"
     ⟨none, none, none, none, none⟩ 9 (by decide),
   update_nonexistent_id.2 sampleDB "post_none"
     ⟨none, none, none, none, none, none⟩ 9 (by decide)⟩

/-- C9: the router `update` procedures change only the fields present in the
`data` patch plus `updatedAt`: the written row keeps the prior `id` and
`createdAt`, fields absent from the patch keep their prior values, fields
present take the patch value, and `updatedAt` is set to the call instant. -/
theorem routerUpdate_frame :
    (∀ db id d now u, UserRepository.findById db id = some u →
      (usersUpdateProc db id d now).1 = some (routerPatchedUser u d now) ∧
      (routerPatchedUser u d now).id = u.id ∧
      (routerPatchedUser u d now).createdAt = u.createdAt ∧
      (d.name = none → (routerPatchedUser u d now).name = u.name) ∧
      (d.email = none → (routerPatchedUser u d now).email = u.email) ∧
      (∀ s, d.name = some s → (routerPatchedUser u d now).name = s) ∧
      (∀ s, d.email = some s → (routerPatchedUser u d now).email = s) ∧
      (routerPatchedUser u d now).updatedAt = now) ∧
    (∀ db id d now q, PostRepository.findById db id = some q →
      (postsUpdateProc db id d now).1 = some (routerPatchedPost q d now) ∧
      (routerPatchedPost q d now).id = q.id ∧
      (routerPatchedPost q d now).createdAt = q.createdAt ∧
      (d.title = none → (routerPatchedPost q d now).title = q.title) ∧
      (d.content = none → (routerPatchedPost q d now).content = q.content) ∧
      (d.authorId = none → (routerPatchedPost q d now).authorId = q.authorId) ∧
      (∀ s, d.title = some s → (routerPatchedPost q d now).title = s) ∧
      (routerPatchedPost q d now).updatedAt = now) := by
  constructor
  · intro db id d now u hfind
    have h2 : db.users.find? (fun x => x.id == id) = some u := hfind
    refine ⟨?_, rfl, rfl, ?_, ?_, ?_, ?_, rfl⟩
    · show (db.users.find? (fun x => x.id == id)).map
        (fun x => applyUserPatch x ⟨none, d.name, d.email, none, none⟩ now) =
          some (routerPatchedUser u d now)
      rw [h2]
      rfl
    · intro h
      unfold routerPatchedUser applyUserPatch
      rw [h]
      rfl
    · intro h
      unfold routerPatchedUser applyUserPatch
      rw [h]
      rfl
    · intro s h
      unfold routerPatchedUser applyUserPatch
      rw [h]
      rfl
    · intro s h
      unfold routerPatchedUser applyUserPatch
      rw [h]
      rfl
  · intro db id d now q hfind
    have h2 : db.posts.find? (fun x => x.id == id) = some q := hfind
    refine ⟨?_, rfl, rfl, ?_, ?_, ?_, ?_, rfl⟩
    · show (db.posts.find? (fun x => x.id == id)).map
        (fun x => applyPostPatch x ⟨none, d.title, d.content, d.authorId, none, none⟩ now) =
          some (routerPatchedPost q d now)
      rw [h2]
      rfl
    · intro h
      unfold routerPatchedPost applyPostPatch
      rw [h]
      rfl
    · intro h
      unfold routerPatchedPost applyPostPatch
      rw [h]
      rfl
    · intro h
      unfold routerPatchedPost applyPostPatch
      rw [h]
      rfl
    · intro s h
      unfold routerPatchedPost applyPostPatch
      rw [h]
      rfl

/-- C9 witness: a patch setting only `name` on the sample user keeps the
id, createdAt and email, writes the new name, and stamps `updatedAt`; a
patch setting only `content` on the sample post behaves likewise. -/
theorem routerUpdate_frame_witness :
    (usersUpdateProc sampleDB "user_ada" ⟨some "Beth", none⟩ 9).1 =
      some (routerPatchedUser adaRow ⟨some "Beth", none⟩ 9) ∧
    (routerPatchedUser adaRow ⟨some "Beth", none⟩ 9).id = adaRow.id ∧
    (routerPatchedUser adaRow ⟨some "Beth", none⟩ 9).createdAt = adaRow.createdAt ∧
    (routerPatchedUser adaRow ⟨some "Beth", none⟩ 9).email = adaRow.email ∧
    (routerPatchedUser adaRow ⟨some "Beth", none⟩ 9).name = "Beth" ∧
    (routerPatchedUser adaRow ⟨some "Beth", none⟩ 9).updatedAt = 9 ∧
    (postsUpdateProc sampleDB "post_one" ⟨none, some "Hello", none⟩ 9).1 =
      some (routerPatchedPost adaPost ⟨none, some "Hello", none⟩ 9) ∧
    (routerPatchedPost adaPost ⟨none, some "Hello", none⟩ 9).title = adaPost.title ∧
    (routerPatchedPost adaPost ⟨none, some "Hello", none⟩ 9).authorId = adaPost.authorId :=
  ⟨(routerUpdate_frame.1 sampleDB "user_ada" ⟨some "Beth", none⟩ 9 adaRow (by decide)).1,
   (routerUpdate_frame.1 sampleDB "user_ada" ⟨some "Beth", none⟩ 9 adaRow (by decide)).2.1,
   (routerUpdate_frame.1 sampleDB "user_ada" ⟨some "Beth", none⟩ 9 adaRow (by decide)).2.2.1,
   (routerUpdate_frame.1 sampleDB "user_ada" ⟨some "Beth", none⟩ 9 adaRow (by decide)).2.2.2.2.1 rfl,
   (routerUpdate_frame.1 sampleDB "user_ada" ⟨some "Beth", none⟩ 9 adaRow (by decide)).2.2.2.2.2.1 "Beth" rfl,
   (routerUpdate_frame.1 sampleDB "user_ada" ⟨some "Beth", none⟩ 9 adaRow (by decide)).2.2.2.2.2.2.2,
   (routerUpdate_frame.2 sampleDB "post_one" ⟨none, some "Hello", none⟩ 9 adaPost (by decide)).1,
   (routerUpdate_frame.2 sampleDB "post_one" ⟨none, some "Hello", none⟩ 9 adaPost (by decide)).2.2.2.1 rfl,
   (routerUpdate_frame.2 sampleDB "post_one" ⟨none, some "Hello", none⟩ 9 adaPost (by decide)).2.2.2.2.2.1 rfl⟩
